import Mathlib

/-!
Verification of the `benchy` benchmark dispatcher
(`src/fil-proofs-tooling/src/bin/benchy/main.rs`).

The dispatcher parses command-line matches for six subcommands and invokes
the corresponding benchmark runner.  We embed the argument declarations and
the dispatch arms directly from the source.  The external collaborators
(the `clap` argument matcher, the `byte_unit` size parser, `usize`
string parsing) are modelled by executable Lean functions; the benchmark
runner modules (`window_post.rs`, `winning_post.rs`, `merkleproofs.rs`,
`aggregate_proof.rs`, `prodbench.rs`) and `ApiVersion::from_str` are not
among the sources and are modelled from the specification where a claim
depends on them.

Execution is represented by a trace of `Event`s (files opened, runners
invoked, benchmark phases executed, output written) paired with an
`Except BenchError` result; a dispatch arm that fails produces an error
and an event trace showing how far it got.
-/

namespace Benchy

/-- Modelled from the spec: `ApiVersion` lives in the `storage_proofs_core`
crate, which is not among the sources.  The spec orders protocol versions
starting from the default `1.0.0`. -/
inductive ApiVersion where
  | V1_0_0
  | V1_1_0
deriving DecidableEq

/-- Modelled from the spec: `ApiVersion::from_str` (in `storage_proofs_core`,
not among the sources) recognizes a fixed set of protocol version strings
containing the default `1.0.0`; an unrecognized value is an error. -/
def apiVersionFromStr (s : String) : Option ApiVersion :=
  if s = "1.0.0" then some ApiVersion.V1_0_0
  else if s = "1.1.0" then some ApiVersion.V1_1_0
  else none

/-- Value of a decimal digit string (most significant digit first). -/
def digitsToNat (ds : List Char) : Nat :=
  ds.foldl (fun acc c => acc * 10 + (c.toNat - 48)) 0

/-- Split a character list into its leading run of decimal digits and the
rest (the unit suffix). -/
def splitDigits : List Char → List Char × List Char
  | [] => ([], [])
  | c :: cs =>
    if c.isDigit then
      let p := splitDigits cs
      (c :: p.1, p.2)
    else ([], c :: cs)

/-- Byte multiplier of a unit suffix, as accepted by the external
`byte_unit` crate (decimal and binary units; the empty suffix means
plain bytes). -/
def unitMultiplier : String → Option Nat
  | "" => some 1
  | "B" => some 1
  | "KB" => some 1000
  | "KiB" => some 1024
  | "MB" => some (1000 ^ 2)
  | "MiB" => some (1024 ^ 2)
  | "GB" => some (1000 ^ 3)
  | "GiB" => some (1024 ^ 3)
  | "TB" => some (1000 ^ 4)
  | "TiB" => some (1024 ^ 4)
  | "PB" => some (1000 ^ 5)
  | "PiB" => some (1024 ^ 5)
  | "EB" => some (1000 ^ 6)
  | "EiB" => some (1024 ^ 6)
  | "ZB" => some (1000 ^ 7)
  | "ZiB" => some (1024 ^ 7)
  | _ => none

/-- Model of the external `byte_unit` crate's `Byte::from_str` followed by
`get_bytes()`: a human-readable byte-size string is a decimal number
followed by an optional unit suffix and yields an (unbounded) byte count.
The crate also accepts fractional numbers via floating point; the model is
restricted to integer-valued numbers, which all inputs considered here
are, and on which the crate's arithmetic is exact. -/
def byteFromStr (s : String) : Option Nat :=
  let p := splitDigits s.data
  if p.1 = [] then none
  else (unitMultiplier (String.mk p.2)).map (fun m => digitsToNat p.1 * m)

/-- Width of the platform machine word (`usize` is 64 bits on the supported
platforms). -/
def usizeBits : Nat := 64

/-- The unchecked Rust cast `as usize`: reduction modulo `2 ^ usizeBits`. -/
def usizeCast (n : Nat) : Nat := n % 2 ^ usizeBits

/-- Model of Rust's `usize::from_str` (used by `clap`'s `value_t!` macro for
`usize`-typed arguments): plain decimal digits only, rejecting values that
do not fit in a machine word; no unit suffixes. -/
def natFromStr (s : String) : Option Nat :=
  if s.data.isEmpty then none
  else if s.data.all Char.isDigit then
    let n := digitsToNat s.data
    if n < 2 ^ usizeBits then some n else none
  else none

/-- One `clap` argument declaration: name, long flag, whether it is
required, its default value ("None" when it has none) and whether it takes
a value. -/
structure Arg where
  name : String
  long : String
  required : Bool
  defaultVal : Option String
  takesValue : Bool
deriving DecidableEq

/-- The user-visible side of `clap::ArgMatches` for one subcommand: which
argument names the user passed on the command line, and the value strings
the user supplied for value-taking arguments. -/
structure Matches where
  supplied : List String
  userVals : List (String × String)

/-- Model of `clap 2`'s `ArgMatches::is_present`: true when the user passed
the argument, and also when the argument carries a `default_value` that
clap actually applies.  `clap 2` fills defaults only for value-taking
arguments (its `add_defaults` walks the opts, never the flags), so a
`default_value` on an argument whose `takes_value` setting ended up false
is dropped and does not make the argument present. -/
def isPresent (args : List Arg) (m : Matches) (name : String) : Bool :=
  m.supplied.contains name ||
    ((args.find? (fun a => a.name == name)).bind
      (fun a => if a.takesValue then a.defaultVal else none)).isSome

/-- Error kinds of the dispatcher, following the spec's error-handling
design (section 7) plus the argument-level failures of the `clap` macros. -/
inductive BenchError where
  | argMissing (name : String)
  | parseInt (s : String)
  | invalidSize
  | invalidApiVersion (s : String)
  | invalidFile (path : String)
  | malformedInputDocument
  | onlyFlagsExclusive
  | emptyAggregateBatch
deriving DecidableEq

/-- Model of `clap`'s `value_t!(m, name, String)`: the user-supplied value
when present, the declared default otherwise, and an error when neither
exists. -/
def valueT (args : List Arg) (m : Matches) (name : String) :
    Except BenchError String :=
  match m.userVals.lookup name with
  | some v => Except.ok v
  | none =>
    match (args.find? (fun a => a.name == name)).bind (fun a => a.defaultVal) with
    | some d => Except.ok d
    | none => Except.error (BenchError.argMissing name)

/-- Argument declarations of the `window-post` subcommand
(main.rs lines 25-91). -/
def windowPostArgs : List Arg :=
  [⟨"preserve-cache", "preserve-cache", false, none, false⟩,
   ⟨"skip-precommit-phase1", "skip-precommit-phase1", false, none, false⟩,
   ⟨"skip-precommit-phase2", "skip-precommit-phase2", false, none, false⟩,
   ⟨"skip-commit-phase1", "skip-commit-phase1", false, none, false⟩,
   ⟨"skip-commit-phase2", "skip-commit-phase2", false, none, false⟩,
   ⟨"test-resume", "test-resume", false, none, false⟩,
   ⟨"cache", "cache", false, some "", true⟩,
   ⟨"size", "size", true, none, true⟩,
   ⟨"api_version", "api-version", true, some "1.0.0", true⟩]

/-- Argument declarations of the `winning-post` subcommand
(main.rs lines 93-109). -/
def winningPostArgs : List Arg :=
  [⟨"size", "size", true, none, true⟩,
   ⟨"api_version", "api-version", true, some "1.0.0", true⟩]

/-- Argument declarations of the `prodbench` subcommand
(main.rs lines 114-146). -/
def prodbenchArgs : List Arg :=
  [⟨"config", "config", false, none, true⟩,
   ⟨"skip-seal-proof", "skip-seal-proof", false, none, false⟩,
   ⟨"skip-post-proof", "skip-post-proof", false, none, false⟩,
   ⟨"only-replicate", "only-replicate", false, none, false⟩,
   ⟨"only-add-piece", "only-add-piece", false, none, false⟩]

/-- Argument declarations of the `merkleproofs` subcommand
(main.rs lines 148-172).  Note that `validate` is declared with
`default_value("true")` followed by `takes_value(false)`: the later call
unsets the value-taking setting, making `validate` a plain flag, and
`clap 2` drops the recorded default for non-value-taking arguments. -/
def merkleproofsArgs : List Arg :=
  [⟨"size", "size", true, none, true⟩,
   ⟨"proofs", "proofs", false, some "1024", true⟩,
   ⟨"validate", "validate", false, some "true", false⟩]

/-- Argument declarations of the `aggregate-proof` subcommand
(main.rs lines 174-190). -/
def aggProofArgs : List Arg :=
  [⟨"num_agg", "num_agg", true, some "128", true⟩,
   ⟨"size", "size", true, none, true⟩]

/-- The benchmark stages of a prodbench job (spec section 4.7). -/
inductive Stage where
  | addPiece
  | replicate
  | seal
  | post
deriving DecidableEq

/-- The benchmark phases the runners execute (spec sections 4.2-4.6). -/
inductive PhaseId where
  | precommit1
  | precommit2
  | commit1
  | commit2
  | postGeneration
  | postVerification
  | merkleGeneration (i : Nat)
  | merkleVerification (i : Nat)
  | aggregation
deriving DecidableEq

/-- A prodbench job specification document (spec section 3); its contents
are opaque to the dispatcher, which only deserializes and forwards it. -/
structure ProdbenchInputs where
  sectorSizeBytes : String
  apiVersion : String
deriving DecidableEq, Inhabited

/-- One per-stage record of a prodbench results document. -/
structure StageRecord where
  stage : Stage
  elapsed : Nat
deriving DecidableEq

/-- A prodbench results document: one record per stage actually executed. -/
abbrev ProdbenchOutputs := List StageRecord

/-- Observable actions of one dispatched invocation. -/
inductive Event where
  | openedFile (path : String)
  | readStdin
  | calledProdbenchRun (skipSealProof skipPostProof onlyReplicate onlyAddPiece : Bool)
  | ranStage (s : Stage)
  | wroteStdout (s : String)
  | calledWindowPost (sectorSize : Nat) (api : ApiVersion) (cacheDir : String)
      (preserveCache skipPc1 skipPc2 skipC1 skipC2 testResume : Bool)
  | calledWinningPost (sectorSize : Nat) (api : ApiVersion)
  | calledMerkleproofs (size proofsCount : Nat) (validate : Bool)
  | calledAggregateProof (sectorSize nums : Nat)
  | phase (p : PhaseId)
deriving DecidableEq

/-- Whether an event is the invocation of `prodbench::run`. -/
def isRunCall : Event → Bool
  | Event.calledProdbenchRun _ _ _ _ => true
  | _ => false

/-- Whether an event is the execution of a prodbench benchmark stage. -/
def isStageEvent : Event → Bool
  | Event.ranStage _ => true
  | _ => false

/-- Whether an event is the execution of a benchmark phase. -/
def isPhaseEvent : Event → Bool
  | Event.phase _ => true
  | _ => false

/-- The files and standard-input contents visible to one invocation. -/
structure World where
  files : String → Option String
  stdinData : String

/-- Modelled from the spec: `window_post::run` (benchy's `window_post.rs` is
not among the sources).  An invalid (zero) sector size fails fast before
any phase executes (spec section 3); otherwise the four sealing phases run
in fixed order, those whose skip flag is set being satisfied from cache
rather than executed, followed by PoSt generation and verification
(spec sections 4.2 and 4.4).  Cache bookkeeping and prerequisite checking
are below the level the claims need and are not modelled. -/
def windowPostRun (sectorSize : Nat) (_api : ApiVersion) (_cacheDir : String)
    (_preserveCache skipPc1 skipPc2 skipC1 skipC2 _testResume : Bool) :
    List Event × Except BenchError Unit :=
  if sectorSize = 0 then ([], Except.error BenchError.invalidSize)
  else
    ((if skipPc1 then [] else [Event.phase PhaseId.precommit1]) ++
     (if skipPc2 then [] else [Event.phase PhaseId.precommit2]) ++
     (if skipC1 then [] else [Event.phase PhaseId.commit1]) ++
     (if skipC2 then [] else [Event.phase PhaseId.commit2]) ++
     [Event.phase PhaseId.postGeneration, Event.phase PhaseId.postVerification],
     Except.ok ())

/-- Modelled from the spec: `winning_post::run` (benchy's `winning_post.rs`
is not among the sources).  An invalid (zero) sector size fails fast before
any phase executes; otherwise one proof-of-spacetime is generated and
verified (spec section 4.4). -/
def winningPostRun (sectorSize : Nat) (_api : ApiVersion) :
    List Event × Except BenchError Unit :=
  if sectorSize = 0 then ([], Except.error BenchError.invalidSize)
  else
    ([Event.phase PhaseId.postGeneration, Event.phase PhaseId.postVerification],
     Except.ok ())

/-- Modelled from the spec: `merkleproofs::run` (benchy's `merkleproofs.rs`
is not among the sources).  An invalid (zero) data size fails fast before
any phase executes; otherwise N opening proofs are generated and, when
`validate` is set, each is verified (spec section 4.5). -/
def merkleproofsRun (size proofsCount : Nat) (validate : Bool) :
    List Event × Except BenchError Unit :=
  if size = 0 then ([], Except.error BenchError.invalidSize)
  else
    ((List.range proofsCount).map (fun i => Event.phase (PhaseId.merkleGeneration i)) ++
     (if validate then
        (List.range proofsCount).map (fun i => Event.phase (PhaseId.merkleVerification i))
      else []),
     Except.ok ())

/-- Modelled from the spec: `aggregate_proof::run` (benchy's
`aggregate_proof.rs` is not among the sources).  A batch count of zero is
invalid (`EmptyAggregateBatch`), an invalid (zero) sector size fails fast
before any phase executes, and otherwise K single proofs are obtained and
the aggregation operation is invoked exactly once, producing one
aggregated-proof timing record (spec section 4.6). -/
def aggregateProofRun (sectorSize nums : Nat) :
    List Event × Except BenchError (List Nat) :=
  if nums = 0 then ([], Except.error BenchError.emptyAggregateBatch)
  else if sectorSize = 0 then ([], Except.error BenchError.invalidSize)
  else
    ((List.range nums).map (fun _ => Event.phase PhaseId.postGeneration) ++
     [Event.phase PhaseId.aggregation],
     Except.ok [0])

/-- Modelled from the spec: `prodbench::run` (benchy's `prodbench.rs` is not
among the sources).  The orchestrator validates the mutual exclusivity of
the `only-*` selectors before running anything, then determines the stage
set - the set consisting of seal and PoSt minus the stages excluded by the
`skip-*` flags, or exactly one stage when an `only-*` flag narrows the
job - executes it, and returns one record per stage executed
(spec sections 3 and 4.7). -/
def prodbenchRun (_inputs : ProdbenchInputs)
    (skipSealProof skipPostProof onlyReplicate onlyAddPiece : Bool) :
    List Event × Except BenchError ProdbenchOutputs :=
  if onlyReplicate && onlyAddPiece then
    ([], Except.error BenchError.onlyFlagsExclusive)
  else
    let stages : List Stage :=
      if onlyReplicate then [Stage.replicate]
      else if onlyAddPiece then [Stage.addPiece]
      else
        (if skipSealProof then [] else [Stage.seal]) ++
        (if skipPostProof then [] else [Stage.post])
    (stages.map Event.ranStage, Except.ok (stages.map (fun s => ⟨s, 0⟩)))

/-- Acquisition of the `ProdbenchInputs` document (main.rs lines 242-251):
from the file named by `--config` when that flag is present, otherwise from
standard input; a missing file or a failed deserialization aborts. -/
def prodbenchAcquire (deser : String → Option ProdbenchInputs) (w : World)
    (m : Matches) : List Event × Except BenchError ProdbenchInputs :=
  if isPresent prodbenchArgs m "config" then
    match valueT prodbenchArgs m "config" with
    | Except.error e => ([], Except.error e)
    | Except.ok file =>
      match w.files file with
      | none => ([], Except.error (BenchError.invalidFile file))
      | some contents =>
        match deser contents with
        | none => ([Event.openedFile file], Except.error BenchError.malformedInputDocument)
        | some i => ([Event.openedFile file], Except.ok i)
  else
    match deser w.stdinData with
    | none => ([Event.readStdin], Except.error BenchError.malformedInputDocument)
    | some i => ([Event.readStdin], Except.ok i)

/-- The `prodbench` dispatch arm (main.rs lines 241-263): acquire the
inputs, invoke `prodbench::run` with the four stage-selector flags, and
serialize the resulting outputs document to standard output. -/
def prodbenchDispatch (deser : String → Option ProdbenchInputs)
    (ser : ProdbenchOutputs → String) (w : World) (m : Matches) :
    List Event × Except BenchError Unit :=
  match prodbenchAcquire deser w m with
  | (tr, Except.error e) => (tr, Except.error e)
  | (tr, Except.ok inputs) =>
    let skipSeal := isPresent prodbenchArgs m "skip-seal-proof"
    let skipPost := isPresent prodbenchArgs m "skip-post-proof"
    let onlyRep := isPresent prodbenchArgs m "only-replicate"
    let onlyAdd := isPresent prodbenchArgs m "only-add-piece"
    match prodbenchRun inputs skipSeal skipPost onlyRep onlyAdd with
    | (rtr, Except.error e) =>
      (tr ++ Event.calledProdbenchRun skipSeal skipPost onlyRep onlyAdd :: rtr,
       Except.error e)
    | (rtr, Except.ok outs) =>
      (tr ++ Event.calledProdbenchRun skipSeal skipPost onlyRep onlyAdd ::
         (rtr ++ [Event.wroteStdout (ser outs)]),
       Except.ok ())

/-- The `window-post` dispatch arm (main.rs lines 204-226). -/
def windowPostArm (m : Matches) : List Event × Except BenchError Unit :=
  let preserveCache := isPresent windowPostArgs m "preserve-cache"
  let skipPc1 := isPresent windowPostArgs m "skip-precommit-phase1"
  let skipPc2 := isPresent windowPostArgs m "skip-precommit-phase2"
  let skipC1 := isPresent windowPostArgs m "skip-commit-phase1"
  let skipC2 := isPresent windowPostArgs m "skip-commit-phase2"
  let testResume := isPresent windowPostArgs m "test-resume"
  match valueT windowPostArgs m "cache" with
  | Except.error e => ([], Except.error e)
  | Except.ok cacheDir =>
    match valueT windowPostArgs m "size" with
    | Except.error e => ([], Except.error e)
    | Except.ok sizeStr =>
      match byteFromStr sizeStr with
      | none => ([], Except.error BenchError.invalidSize)
      | some rawSize =>
        let sectorSize := usizeCast rawSize
        match valueT windowPostArgs m "api_version" with
        | Except.error e => ([], Except.error e)
        | Except.ok apiStr =>
          match apiVersionFromStr apiStr with
          | none => ([], Except.error (BenchError.invalidApiVersion apiStr))
          | some api =>
            let r := windowPostRun sectorSize api cacheDir preserveCache
              skipPc1 skipPc2 skipC1 skipC2 testResume
            (Event.calledWindowPost sectorSize api cacheDir preserveCache
               skipPc1 skipPc2 skipC1 skipC2 testResume :: r.1, r.2)

/-- The `winning-post` dispatch arm (main.rs lines 227-231). -/
def winningPostArm (m : Matches) : List Event × Except BenchError Unit :=
  match valueT winningPostArgs m "size" with
  | Except.error e => ([], Except.error e)
  | Except.ok sizeStr =>
    match byteFromStr sizeStr with
    | none => ([], Except.error BenchError.invalidSize)
    | some rawSize =>
      let sectorSize := usizeCast rawSize
      match valueT winningPostArgs m "api_version" with
      | Except.error e => ([], Except.error e)
      | Except.ok apiStr =>
        match apiVersionFromStr apiStr with
        | none => ([], Except.error (BenchError.invalidApiVersion apiStr))
        | some api =>
          let r := winningPostRun sectorSize api
          (Event.calledWinningPost sectorSize api :: r.1, r.2)

/-- The `merkleproofs` dispatch arm (main.rs lines 235-240). -/
def merkleproofsArm (m : Matches) : List Event × Except BenchError Unit :=
  match valueT merkleproofsArgs m "size" with
  | Except.error e => ([], Except.error e)
  | Except.ok sizeStr =>
    match byteFromStr sizeStr with
    | none => ([], Except.error BenchError.invalidSize)
    | some rawSize =>
      let size := usizeCast rawSize
      match valueT merkleproofsArgs m "proofs" with
      | Except.error e => ([], Except.error e)
      | Except.ok proofsStr =>
        match natFromStr proofsStr with
        | none => ([], Except.error (BenchError.parseInt proofsStr))
        | some proofsCount =>
          let validate := isPresent merkleproofsArgs m "validate"
          let r := merkleproofsRun size proofsCount validate
          (Event.calledMerkleproofs size proofsCount validate :: r.1, r.2)

/-- The `aggregate-proof` dispatch arm (main.rs lines 264-268): note that
`num_agg` is parsed with the same byte-size parser as `size`. -/
def aggregateProofArm (m : Matches) : List Event × Except BenchError (List Nat) :=
  match valueT aggProofArgs m "num_agg" with
  | Except.error e => ([], Except.error e)
  | Except.ok numStr =>
    match byteFromStr numStr with
    | none => ([], Except.error BenchError.invalidSize)
    | some rawNums =>
      let nums := usizeCast rawNums
      match valueT aggProofArgs m "size" with
      | Except.error e => ([], Except.error e)
      | Except.ok sizeStr =>
        match byteFromStr sizeStr with
        | none => ([], Except.error BenchError.invalidSize)
        | some rawSize =>
          let sectorSize := usizeCast rawSize
          let r := aggregateProofRun sectorSize nums
          (Event.calledAggregateProof sectorSize nums :: r.1, r.2)

/-- Command-line matches that pass only `--size s`. -/
def sizeOnly (s : String) : Matches := ⟨["size"], [("size", s)]⟩

/-- Command-line matches that pass `--num_agg s --size 1KiB`. -/
def numAggSize (s : String) : Matches :=
  ⟨["num_agg", "size"], [("num_agg", s), ("size", "1KiB")]⟩

/-! ### Helper lemmas about the clap model -/

theorem valueT_user (args : List Arg) (m : Matches) (name v : String)
    (h : m.userVals.lookup name = some v) : valueT args m name = Except.ok v := by
  unfold valueT
  rw [h]

theorem valueT_default (args : List Arg) (m : Matches) (name d : String)
    (h : m.userVals.lookup name = none)
    (hd : (args.find? (fun a => a.name == name)).bind (fun a => a.defaultVal) = some d) :
    valueT args m name = Except.ok d := by
  unfold valueT
  rw [h, hd]

theorem valueT_ok_of_default (args : List Arg) (m : Matches) (name d : String)
    (hd : (args.find? (fun a => a.name == name)).bind (fun a => a.defaultVal) = some d) :
    ∃ v, valueT args m name = Except.ok v := by
  cases h : m.userVals.lookup name with
  | some v => exact ⟨v, valueT_user args m name v h⟩
  | none => exact ⟨d, valueT_default args m name d h hd⟩

theorem isPresent_of_contains (args : List Arg) (m : Matches) (name : String)
    (h : m.supplied.contains name = true) : isPresent args m name = true := by
  unfold isPresent
  rw [h, Bool.true_or]

theorem isPresent_of_default (args : List Arg) (m : Matches) (name : String)
    (hd : ((args.find? (fun a => a.name == name)).bind
      (fun a => if a.takesValue then a.defaultVal else none)).isSome = true) :
    isPresent args m name = true := by
  unfold isPresent
  rw [hd, Bool.or_true]

theorem isPresent_eq_contains (args : List Arg) (m : Matches) (name : String)
    (hd : (args.find? (fun a => a.name == name)).bind
      (fun a => if a.takesValue then a.defaultVal else none) = none) :
    isPresent args m name = m.supplied.contains name := by
  unfold isPresent
  rw [hd]
  simp

/-- The input-acquisition step performs no benchmark work: its trace holds
only transport events. -/
theorem prodbenchAcquire_benign (deser : String → Option ProdbenchInputs)
    (w : World) (m : Matches) :
    (prodbenchAcquire deser w m).1.all
      (fun e => !(isRunCall e || isStageEvent e || isPhaseEvent e)) = true := by
  unfold prodbenchAcquire
  repeat' split
  all_goals simp [isRunCall, isStageEvent, isPhaseEvent]

theorem all_not_stage_of_benign (l : List Event)
    (h : l.all (fun e => !(isRunCall e || isStageEvent e || isPhaseEvent e)) = true) :
    l.all (fun e => !isStageEvent e) = true := by
  rw [List.all_eq_true] at h ⊢
  intro e he
  have h2 := h e he
  cases hs2 : isStageEvent e with
  | false => rfl
  | true => rw [hs2] at h2; simp at h2

theorem all_not_run_of_benign (l : List Event)
    (h : l.all (fun e => !(isRunCall e || isStageEvent e || isPhaseEvent e)) = true) :
    l.all (fun e => !isRunCall e) = true := by
  rw [List.all_eq_true] at h ⊢
  intro e he
  have h2 := h e he
  cases hs2 : isRunCall e with
  | false => rfl
  | true => rw [hs2] at h2; simp at h2

theorem prodbenchAcquire_config (deser : String → Option ProdbenchInputs)
    (w : World) (m : Matches) (f : String)
    (hp : isPresent prodbenchArgs m "config" = true)
    (hv : valueT prodbenchArgs m "config" = Except.ok f) :
    prodbenchAcquire deser w m =
      (match w.files f with
       | none => ([], Except.error (BenchError.invalidFile f))
       | some contents =>
         match deser contents with
         | none => ([Event.openedFile f], Except.error BenchError.malformedInputDocument)
         | some i => ([Event.openedFile f], Except.ok i)) := by
  unfold prodbenchAcquire
  rw [hp, hv]
  rfl

theorem prodbenchAcquire_stdin (deser : String → Option ProdbenchInputs)
    (w : World) (m : Matches)
    (hp : isPresent prodbenchArgs m "config" = false) :
    prodbenchAcquire deser w m =
      (match deser w.stdinData with
       | none => ([Event.readStdin], Except.error BenchError.malformedInputDocument)
       | some i => ([Event.readStdin], Except.ok i)) := by
  unfold prodbenchAcquire
  rw [hp]
  rfl

theorem prodbenchDispatch_of_acquire_error (deser : String → Option ProdbenchInputs)
    (ser : ProdbenchOutputs → String) (w : World) (m : Matches)
    (tr : List Event) (e : BenchError)
    (hA : prodbenchAcquire deser w m = (tr, Except.error e)) :
    prodbenchDispatch deser ser w m = (tr, Except.error e) := by
  unfold prodbenchDispatch
  rw [hA]


/-! ### C1 - C3: the prodbench dispatch -/

/-- C1: for every prodbench invocation in which both the `only-replicate`
and the `only-add-piece` selectors are set, the job is rejected by the
orchestrator's mutual-exclusivity validation and no benchmark stage runs. -/
theorem c1_prodbench_only_flags_rejected
    (deser : String → Option ProdbenchInputs) (ser : ProdbenchOutputs → String)
    (w : World) (m : Matches) (i : ProdbenchInputs)
    (hrep : m.supplied.contains "only-replicate" = true)
    (hadd : m.supplied.contains "only-add-piece" = true)
    (hacq : (prodbenchAcquire deser w m).2 = Except.ok i) :
    (prodbenchDispatch deser ser w m).2 = Except.error BenchError.onlyFlagsExclusive ∧
    (prodbenchDispatch deser ser w m).1.all (fun e => !isStageEvent e) = true := by
  have hr := isPresent_of_contains prodbenchArgs m "only-replicate" hrep
  have ha := isPresent_of_contains prodbenchArgs m "only-add-piece" hadd
  have hben := prodbenchAcquire_benign deser w m
  rcases hA : prodbenchAcquire deser w m with ⟨tr, res⟩
  rw [hA] at hacq hben
  dsimp only at hacq hben
  subst hacq
  have htr := all_not_stage_of_benign tr hben
  have hrun : prodbenchRun i (isPresent prodbenchArgs m "skip-seal-proof")
      (isPresent prodbenchArgs m "skip-post-proof") true true =
      ([], Except.error BenchError.onlyFlagsExclusive) := rfl
  unfold prodbenchDispatch
  rw [hA]
  dsimp only
  rw [hr, ha, hrun]
  dsimp only
  refine ⟨rfl, ?_⟩
  rw [List.all_append, htr]
  rfl

/-- Closed check of `c1_prodbench_only_flags_rejected` at a concrete
invocation. -/
theorem c1_witness :
    (prodbenchDispatch (fun _ => some ⟨"2KiB", "1.0.0"⟩) (fun _ => "out")
        ⟨fun _ => none, "doc"⟩
        ⟨["only-replicate", "only-add-piece"], []⟩).2 =
      Except.error BenchError.onlyFlagsExclusive ∧
    (prodbenchDispatch (fun _ => some ⟨"2KiB", "1.0.0"⟩) (fun _ => "out")
        ⟨fun _ => none, "doc"⟩
        ⟨["only-replicate", "only-add-piece"], []⟩).1.all
      (fun e => !isStageEvent e) = true :=
  c1_prodbench_only_flags_rejected (fun _ => some ⟨"2KiB", "1.0.0"⟩)
    (fun _ => "out") ⟨fun _ => none, "doc"⟩
    ⟨["only-replicate", "only-add-piece"], []⟩ ⟨"2KiB", "1.0.0"⟩
    (by rfl) (by rfl) (by rfl)

/-- C2: for every prodbench invocation whose input document is malformed or
unreadable - the `--config` file cannot be opened, or the bytes from the
file or from standard input do not deserialize to a `ProdbenchInputs` - the
whole invocation fails before `prodbench::run` is called. -/
theorem c2_prodbench_malformed_input_fails_before_run
    (deser : String → Option ProdbenchInputs) (ser : ProdbenchOutputs → String)
    (w : World) (m : Matches)
    (h : (isPresent prodbenchArgs m "config" = true ∧
           ((∃ f, valueT prodbenchArgs m "config" = Except.ok f ∧
              w.files f = none) ∨
            (∃ f c, valueT prodbenchArgs m "config" = Except.ok f ∧
              w.files f = some c ∧ deser c = none))) ∨
         (isPresent prodbenchArgs m "config" = false ∧
           deser w.stdinData = none)) :
    (∃ e, (prodbenchDispatch deser ser w m).2 = Except.error e) ∧
    (prodbenchDispatch deser ser w m).1.all (fun e => !isRunCall e) = true := by
  have key : ∃ tr e, prodbenchAcquire deser w m = (tr, Except.error e) ∧
      tr.all (fun x => !isRunCall x) = true := by
    rcases h with ⟨hp, hcase⟩ | ⟨hp, hd⟩
    · rcases hcase with ⟨f, hv, hf⟩ | ⟨f, c, hv, hf, hds⟩
      · refine ⟨[], BenchError.invalidFile f, ?_, rfl⟩
        rw [prodbenchAcquire_config deser w m f hp hv, hf]
      · refine ⟨[Event.openedFile f], BenchError.malformedInputDocument, ?_, rfl⟩
        rw [prodbenchAcquire_config deser w m f hp hv, hf]
        dsimp only
        rw [hds]
    · refine ⟨[Event.readStdin], BenchError.malformedInputDocument, ?_, rfl⟩
      rw [prodbenchAcquire_stdin deser w m hp, hd]
  rcases key with ⟨tr, e, hA, htr⟩
  rw [prodbenchDispatch_of_acquire_error deser ser w m tr e hA]
  exact ⟨⟨e, rfl⟩, htr⟩

/-- Closed check of `c2_prodbench_malformed_input_fails_before_run` at a
concrete invocation whose standard input does not deserialize. -/
theorem c2_witness :
    (∃ e, (prodbenchDispatch (fun _ => none) (fun _ => "out")
        ⟨fun _ => none, "garbage"⟩ ⟨[], []⟩).2 = Except.error e) ∧
    (prodbenchDispatch (fun _ => none) (fun _ => "out")
        ⟨fun _ => none, "garbage"⟩ ⟨[], []⟩).1.all
      (fun e => !isRunCall e) = true :=
  c2_prodbench_malformed_input_fails_before_run (fun _ => none)
    (fun _ => "out") ⟨fun _ => none, "garbage"⟩ ⟨[], []⟩
    (Or.inr ⟨by rfl, by rfl⟩)

/-- C3: the prodbench inputs document is deserialized from the file named
by `--config` when that flag is present and from standard input when it is
absent, and the resulting outputs document is serialized to standard
output (the final event of a successful invocation) in both cases. -/
theorem c3_prodbench_transport
    (deser : String → Option ProdbenchInputs) (ser : ProdbenchOutputs → String)
    (w : World) (m : Matches) :
    (∀ f c i, isPresent prodbenchArgs m "config" = true →
      valueT prodbenchArgs m "config" = Except.ok f →
      w.files f = some c → deser c = some i →
      prodbenchAcquire deser w m = ([Event.openedFile f], Except.ok i)) ∧
    (∀ i, isPresent prodbenchArgs m "config" = false →
      deser w.stdinData = some i →
      prodbenchAcquire deser w m = ([Event.readStdin], Except.ok i)) ∧
    (∀ tr i rtr outs, prodbenchAcquire deser w m = (tr, Except.ok i) →
      prodbenchRun i (isPresent prodbenchArgs m "skip-seal-proof")
        (isPresent prodbenchArgs m "skip-post-proof")
        (isPresent prodbenchArgs m "only-replicate")
        (isPresent prodbenchArgs m "only-add-piece") = (rtr, Except.ok outs) →
      (∃ pre, (prodbenchDispatch deser ser w m).1 =
        pre ++ [Event.wroteStdout (ser outs)]) ∧
      (prodbenchDispatch deser ser w m).2 = Except.ok ()) := by
  refine ⟨?_, ?_, ?_⟩
  · intro f c i hp hv hf hd
    rw [prodbenchAcquire_config deser w m f hp hv, hf]
    dsimp only
    rw [hd]
  · intro i hp hd
    rw [prodbenchAcquire_stdin deser w m hp, hd]
  · intro tr i rtr outs hA hR
    unfold prodbenchDispatch
    rw [hA]
    dsimp only
    rw [hR]
    dsimp only
    constructor
    · exact ⟨tr ++ Event.calledProdbenchRun
        (isPresent prodbenchArgs m "skip-seal-proof")
        (isPresent prodbenchArgs m "skip-post-proof")
        (isPresent prodbenchArgs m "only-replicate")
        (isPresent prodbenchArgs m "only-add-piece") :: rtr,
        by simp⟩
    · rfl

/-- Closed check of `c3_prodbench_transport`: the file case, the
standard-input case, and the stdout serialization of a successful run. -/
theorem c3_witness :
    (prodbenchAcquire (fun _ => some ⟨"2KiB", "1.0.0"⟩)
        ⟨fun p => if p = "cfg.json" then some "doc" else none, "ignored"⟩
        ⟨["config"], [("config", "cfg.json")]⟩ =
      ([Event.openedFile "cfg.json"], Except.ok ⟨"2KiB", "1.0.0"⟩)) ∧
    (prodbenchAcquire (fun _ => some ⟨"2KiB", "1.0.0"⟩)
        ⟨fun _ => none, "doc"⟩ ⟨[], []⟩ =
      ([Event.readStdin], Except.ok ⟨"2KiB", "1.0.0"⟩)) ∧
    ((∃ pre, (prodbenchDispatch (fun _ => some ⟨"2KiB", "1.0.0"⟩)
        (fun _ => "out") ⟨fun _ => none, "doc"⟩ ⟨[], []⟩).1 =
        pre ++ [Event.wroteStdout "out"]) ∧
      (prodbenchDispatch (fun _ => some ⟨"2KiB", "1.0.0"⟩)
        (fun _ => "out") ⟨fun _ => none, "doc"⟩ ⟨[], []⟩).2 = Except.ok ()) :=
  ⟨(c3_prodbench_transport (fun _ => some ⟨"2KiB", "1.0.0"⟩) (fun _ => "out")
      ⟨fun p => if p = "cfg.json" then some "doc" else none, "ignored"⟩
      ⟨["config"], [("config", "cfg.json")]⟩).1
      "cfg.json" "doc" ⟨"2KiB", "1.0.0"⟩ (by rfl) (by rfl) (by rfl) (by rfl),
   (c3_prodbench_transport (fun _ => some ⟨"2KiB", "1.0.0"⟩) (fun _ => "out")
      ⟨fun _ => none, "doc"⟩ ⟨[], []⟩).2.1
      ⟨"2KiB", "1.0.0"⟩ (by rfl) (by rfl),
   (c3_prodbench_transport (fun _ => some ⟨"2KiB", "1.0.0"⟩) (fun _ => "out")
      ⟨fun _ => none, "doc"⟩ ⟨[], []⟩).2.2
      [Event.readStdin] ⟨"2KiB", "1.0.0"⟩
      [Event.ranStage Stage.seal, Event.ranStage Stage.post]
      [⟨Stage.seal, 0⟩, ⟨Stage.post, 0⟩] (by rfl) (by rfl)⟩


/-! ### Characterization of the dispatch arms on simple command lines -/

theorem windowPostArm_sizeOnly (s : String) :
    windowPostArm (sizeOnly s) =
      (match byteFromStr s with
       | none => ([], Except.error BenchError.invalidSize)
       | some rawSize =>
         (Event.calledWindowPost (usizeCast rawSize) ApiVersion.V1_0_0 "" false
            false false false false false ::
            (windowPostRun (usizeCast rawSize) ApiVersion.V1_0_0 "" false
              false false false false false).1,
          (windowPostRun (usizeCast rawSize) ApiVersion.V1_0_0 "" false
            false false false false false).2)) := rfl

theorem winningPostArm_sizeOnly (s : String) :
    winningPostArm (sizeOnly s) =
      (match byteFromStr s with
       | none => ([], Except.error BenchError.invalidSize)
       | some rawSize =>
         (Event.calledWinningPost (usizeCast rawSize) ApiVersion.V1_0_0 ::
            (winningPostRun (usizeCast rawSize) ApiVersion.V1_0_0).1,
          (winningPostRun (usizeCast rawSize) ApiVersion.V1_0_0).2)) := rfl

theorem merkleproofsArm_sizeOnly (s : String) :
    merkleproofsArm (sizeOnly s) =
      (match byteFromStr s with
       | none => ([], Except.error BenchError.invalidSize)
       | some rawSize =>
         (Event.calledMerkleproofs (usizeCast rawSize) 1024 false ::
            (merkleproofsRun (usizeCast rawSize) 1024 false).1,
          (merkleproofsRun (usizeCast rawSize) 1024 false).2)) := rfl

theorem aggregateProofArm_sizeOnly (s : String) :
    aggregateProofArm (sizeOnly s) =
      (match byteFromStr s with
       | none => ([], Except.error BenchError.invalidSize)
       | some rawSize =>
         (Event.calledAggregateProof (usizeCast rawSize) 128 ::
            (aggregateProofRun (usizeCast rawSize) 128).1,
          (aggregateProofRun (usizeCast rawSize) 128).2)) := rfl

theorem aggregateProofArm_numAggSize (s : String) :
    aggregateProofArm (numAggSize s) =
      (match byteFromStr s with
       | none => ([], Except.error BenchError.invalidSize)
       | some rawNums =>
         (Event.calledAggregateProof 1024 (usizeCast rawNums) ::
            (aggregateProofRun 1024 (usizeCast rawNums)).1,
          (aggregateProofRun 1024 (usizeCast rawNums)).2)) := rfl

/-! ### C4: size parsing fails fast -/

/-- C4: for every subcommand taking a `--size` flag, the size string is
parsed as a human-readable byte-size into an integer byte count before the
runner is invoked (the runner-invocation event carries the parsed count);
an unparseable size string fails the invocation before the runner is
invoked, and a zero byte-size fails before any phase executes. -/
theorem c4_size_fail_fast (s : String) :
    (byteFromStr s = none →
      windowPostArm (sizeOnly s) = ([], Except.error BenchError.invalidSize) ∧
      winningPostArm (sizeOnly s) = ([], Except.error BenchError.invalidSize) ∧
      merkleproofsArm (sizeOnly s) = ([], Except.error BenchError.invalidSize) ∧
      aggregateProofArm (sizeOnly s) = ([], Except.error BenchError.invalidSize)) ∧
    (byteFromStr s = some 0 →
      ((windowPostArm (sizeOnly s)).1.all (fun e => !isPhaseEvent e) = true ∧
        (windowPostArm (sizeOnly s)).2 = Except.error BenchError.invalidSize) ∧
      ((winningPostArm (sizeOnly s)).1.all (fun e => !isPhaseEvent e) = true ∧
        (winningPostArm (sizeOnly s)).2 = Except.error BenchError.invalidSize) ∧
      ((merkleproofsArm (sizeOnly s)).1.all (fun e => !isPhaseEvent e) = true ∧
        (merkleproofsArm (sizeOnly s)).2 = Except.error BenchError.invalidSize) ∧
      ((aggregateProofArm (sizeOnly s)).1.all (fun e => !isPhaseEvent e) = true ∧
        (aggregateProofArm (sizeOnly s)).2 = Except.error BenchError.invalidSize)) ∧
    (∀ n, byteFromStr s = some n →
      (windowPostArm (sizeOnly s)).1.head? = some (Event.calledWindowPost
        (usizeCast n) ApiVersion.V1_0_0 "" false false false false false false) ∧
      (winningPostArm (sizeOnly s)).1.head? =
        some (Event.calledWinningPost (usizeCast n) ApiVersion.V1_0_0) ∧
      (merkleproofsArm (sizeOnly s)).1.head? =
        some (Event.calledMerkleproofs (usizeCast n) 1024 false) ∧
      (aggregateProofArm (sizeOnly s)).1.head? =
        some (Event.calledAggregateProof (usizeCast n) 128)) := by
  refine ⟨?_, ?_, ?_⟩
  · intro hb
    rw [windowPostArm_sizeOnly, winningPostArm_sizeOnly, merkleproofsArm_sizeOnly,
      aggregateProofArm_sizeOnly, hb]
    exact ⟨rfl, rfl, rfl, rfl⟩
  · intro hb
    rw [windowPostArm_sizeOnly, winningPostArm_sizeOnly, merkleproofsArm_sizeOnly,
      aggregateProofArm_sizeOnly, hb]
    exact ⟨⟨rfl, rfl⟩, ⟨rfl, rfl⟩, ⟨rfl, rfl⟩, ⟨rfl, rfl⟩⟩
  · intro n hb
    rw [windowPostArm_sizeOnly, winningPostArm_sizeOnly, merkleproofsArm_sizeOnly,
      aggregateProofArm_sizeOnly, hb]
    exact ⟨rfl, rfl, rfl, rfl⟩

/-- Closed check of `c4_size_fail_fast` at an unparseable size, at size
zero, and at a well-formed size. -/
theorem c4_witness :
    (windowPostArm (sizeOnly "zz") = ([], Except.error BenchError.invalidSize) ∧
      winningPostArm (sizeOnly "zz") = ([], Except.error BenchError.invalidSize) ∧
      merkleproofsArm (sizeOnly "zz") = ([], Except.error BenchError.invalidSize) ∧
      aggregateProofArm (sizeOnly "zz") =
        ([], Except.error BenchError.invalidSize)) ∧
    (((windowPostArm (sizeOnly "0")).1.all (fun e => !isPhaseEvent e) = true ∧
        (windowPostArm (sizeOnly "0")).2 = Except.error BenchError.invalidSize) ∧
      ((winningPostArm (sizeOnly "0")).1.all (fun e => !isPhaseEvent e) = true ∧
        (winningPostArm (sizeOnly "0")).2 = Except.error BenchError.invalidSize) ∧
      ((merkleproofsArm (sizeOnly "0")).1.all (fun e => !isPhaseEvent e) = true ∧
        (merkleproofsArm (sizeOnly "0")).2 = Except.error BenchError.invalidSize) ∧
      ((aggregateProofArm (sizeOnly "0")).1.all (fun e => !isPhaseEvent e) = true ∧
        (aggregateProofArm (sizeOnly "0")).2 =
          Except.error BenchError.invalidSize)) ∧
    ((windowPostArm (sizeOnly "3MiB")).1.head? = some (Event.calledWindowPost
        (usizeCast (3 * 1024 ^ 2)) ApiVersion.V1_0_0 "" false false false false
        false false) ∧
      (winningPostArm (sizeOnly "3MiB")).1.head? =
        some (Event.calledWinningPost (usizeCast (3 * 1024 ^ 2)) ApiVersion.V1_0_0) ∧
      (merkleproofsArm (sizeOnly "3MiB")).1.head? =
        some (Event.calledMerkleproofs (usizeCast (3 * 1024 ^ 2)) 1024 false) ∧
      (aggregateProofArm (sizeOnly "3MiB")).1.head? =
        some (Event.calledAggregateProof (usizeCast (3 * 1024 ^ 2)) 128)) :=
  ⟨(c4_size_fail_fast "zz").1 (by rfl),
   (c4_size_fail_fast "0").2.1 (by rfl),
   (c4_size_fail_fast "3MiB").2.2 (3 * 1024 ^ 2) (by rfl)⟩


/-! ### C5 - C6: flag defaults -/

/-- C5: for the window-post and winning-post subcommands the `--api-version`
flag defaults to `1.0.0` when not supplied, and an unrecognized api-version
string fails the invocation before any benchmark runs - the runner is never
invoked. -/
theorem c5_api_version_default_and_unrecognized :
    (∀ (m : Matches) (s : String) (n : Nat),
      m.userVals.lookup "api_version" = none →
      m.userVals.lookup "size" = some s → byteFromStr s = some n →
      (∃ cache b1 b2 b3 b4 b5 b6, (windowPostArm m).1.head? =
        some (Event.calledWindowPost (usizeCast n) ApiVersion.V1_0_0 cache
          b1 b2 b3 b4 b5 b6)) ∧
      (winningPostArm m).1.head? =
        some (Event.calledWinningPost (usizeCast n) ApiVersion.V1_0_0)) ∧
    (∀ (m : Matches) (s a : String) (n : Nat),
      m.userVals.lookup "api_version" = some a → apiVersionFromStr a = none →
      m.userVals.lookup "size" = some s → byteFromStr s = some n →
      windowPostArm m = ([], Except.error (BenchError.invalidApiVersion a)) ∧
      winningPostArm m = ([], Except.error (BenchError.invalidApiVersion a))) := by
  constructor
  · intro m s n hapi hs hb
    constructor
    · obtain ⟨c, hc⟩ := valueT_ok_of_default windowPostArgs m "cache" "" rfl
      have h1 := valueT_user windowPostArgs m "size" s hs
      have h2 := valueT_default windowPostArgs m "api_version" "1.0.0" hapi rfl
      refine ⟨c, isPresent windowPostArgs m "preserve-cache",
        isPresent windowPostArgs m "skip-precommit-phase1",
        isPresent windowPostArgs m "skip-precommit-phase2",
        isPresent windowPostArgs m "skip-commit-phase1",
        isPresent windowPostArgs m "skip-commit-phase2",
        isPresent windowPostArgs m "test-resume", ?_⟩
      unfold windowPostArm
      rw [hc]
      dsimp only
      rw [h1]
      dsimp only
      rw [hb]
      dsimp only
      rw [h2]
      dsimp only
      rw [show apiVersionFromStr "1.0.0" = some ApiVersion.V1_0_0 from rfl]
      rfl
    · have h1 := valueT_user winningPostArgs m "size" s hs
      have h2 := valueT_default winningPostArgs m "api_version" "1.0.0" hapi rfl
      unfold winningPostArm
      rw [h1]
      dsimp only
      rw [hb]
      dsimp only
      rw [h2]
      dsimp only
      rw [show apiVersionFromStr "1.0.0" = some ApiVersion.V1_0_0 from rfl]
      rfl
  · intro m s a n hapi hav hs hb
    constructor
    · obtain ⟨c, hc⟩ := valueT_ok_of_default windowPostArgs m "cache" "" rfl
      have h1 := valueT_user windowPostArgs m "size" s hs
      have h2 := valueT_user windowPostArgs m "api_version" a hapi
      unfold windowPostArm
      rw [hc]
      dsimp only
      rw [h1]
      dsimp only
      rw [hb]
      dsimp only
      rw [h2]
      dsimp only
      rw [hav]
    · have h1 := valueT_user winningPostArgs m "size" s hs
      have h2 := valueT_user winningPostArgs m "api_version" a hapi
      unfold winningPostArm
      rw [h1]
      dsimp only
      rw [hb]
      dsimp only
      rw [h2]
      dsimp only
      rw [hav]

/-- Closed check of `c5_api_version_default_and_unrecognized`: the default
at a concrete invocation that omits `--api-version`, and the failure at a
concrete unrecognized version string. -/
theorem c5_witness :
    ((∃ cache b1 b2 b3 b4 b5 b6, (windowPostArm (sizeOnly "2KiB")).1.head? =
        some (Event.calledWindowPost (usizeCast 2048) ApiVersion.V1_0_0 cache
          b1 b2 b3 b4 b5 b6)) ∧
      (winningPostArm (sizeOnly "2KiB")).1.head? =
        some (Event.calledWinningPost (usizeCast 2048) ApiVersion.V1_0_0)) ∧
    (windowPostArm ⟨["size", "api_version"],
        [("size", "2KiB"), ("api_version", "9.9.9")]⟩ =
      ([], Except.error (BenchError.invalidApiVersion "9.9.9")) ∧
      winningPostArm ⟨["size", "api_version"],
        [("size", "2KiB"), ("api_version", "9.9.9")]⟩ =
      ([], Except.error (BenchError.invalidApiVersion "9.9.9"))) :=
  ⟨c5_api_version_default_and_unrecognized.1 (sizeOnly "2KiB") "2KiB" 2048
      (by rfl) (by rfl) (by rfl),
   c5_api_version_default_and_unrecognized.2
      ⟨["size", "api_version"], [("size", "2KiB"), ("api_version", "9.9.9")]⟩
      "2KiB" "9.9.9" 2048 (by rfl) (by rfl) (by rfl) (by rfl)⟩

/-- C6: the claim fails on the code.  `validate` is declared with
`default_value("true")` but the later `takes_value(false)` (main.rs lines
165-172) demotes it to a plain flag, and `clap 2` drops the recorded
default for non-value-taking arguments, so `is_present("validate")` is
false when the flag is omitted: contrary to the documented default of
true, the runner is invoked with validation disabled. -/
theorem c6_merkleproofs_validate_omitted_false
    (m : Matches) (s ps : String) (n p : Nat)
    (hnv : m.supplied.contains "validate" = false)
    (hs : m.userVals.lookup "size" = some s) (hb : byteFromStr s = some n)
    (hp : valueT merkleproofsArgs m "proofs" = Except.ok ps)
    (hpn : natFromStr ps = some p) :
    (merkleproofsArm m).1.head? =
      some (Event.calledMerkleproofs (usizeCast n) p false) := by
  have h1 := valueT_user merkleproofsArgs m "size" s hs
  have hv : isPresent merkleproofsArgs m "validate" = false := by
    unfold isPresent
    rw [hnv]
    rfl
  unfold merkleproofsArm
  rw [h1]
  dsimp only
  rw [hb]
  dsimp only
  rw [hp]
  dsimp only
  rw [hpn]
  dsimp only
  rw [hv]
  rfl

/-- Closed check of `c6_merkleproofs_validate_omitted_false` at a concrete
invocation that passes only `--size`: the runner receives
`validate = false`. -/
theorem c6_witness :
    (merkleproofsArm (sizeOnly "2KiB")).1.head? =
      some (Event.calledMerkleproofs (usizeCast 2048) 1024 false) :=
  c6_merkleproofs_validate_omitted_false (sizeOnly "2KiB") "2KiB" "1024"
    2048 1024 (by rfl) (by rfl) (by rfl) (by rfl) (by rfl)


/-! ### C7: aggregation count boundary -/

/-- C7: for every aggregate-proof invocation, an aggregation count of 0
fails with `EmptyAggregateBatch` (and no phase executes), and an
aggregation count of 1 succeeds and produces exactly one aggregation
timing record, the aggregation step running exactly once. -/
theorem c7_aggregate_count_boundary :
    (∀ (m : Matches) (ks s : String) (n : Nat),
      m.userVals.lookup "num_agg" = some ks → byteFromStr ks = some 0 →
      m.userVals.lookup "size" = some s → byteFromStr s = some n →
      (aggregateProofArm m).2 = Except.error BenchError.emptyAggregateBatch ∧
      (aggregateProofArm m).1.all (fun e => !isPhaseEvent e) = true) ∧
    (∀ (m : Matches) (ks s : String) (n : Nat),
      m.userVals.lookup "num_agg" = some ks → byteFromStr ks = some 1 →
      m.userVals.lookup "size" = some s → byteFromStr s = some n →
      usizeCast n ≠ 0 →
      (∃ t, (aggregateProofArm m).2 = Except.ok [t]) ∧
      (aggregateProofArm m).1.count (Event.phase PhaseId.aggregation) = 1) := by
  constructor
  · intro m ks s n hk hbk hs hbs
    have h1 := valueT_user aggProofArgs m "num_agg" ks hk
    have h2 := valueT_user aggProofArgs m "size" s hs
    unfold aggregateProofArm
    rw [h1]
    dsimp only
    rw [hbk]
    dsimp only
    rw [h2]
    dsimp only
    rw [hbs]
    dsimp only
    exact ⟨rfl, rfl⟩
  · intro m ks s n hk hbk hs hbs hne
    have h1 := valueT_user aggProofArgs m "num_agg" ks hk
    have h2 := valueT_user aggProofArgs m "size" s hs
    have hrun : aggregateProofRun (usizeCast n) (usizeCast 1) =
        ([Event.phase PhaseId.postGeneration, Event.phase PhaseId.aggregation],
         Except.ok [0]) := by
      unfold aggregateProofRun
      rw [show usizeCast 1 = 1 from rfl]
      rw [if_neg (by decide : ¬(1 = 0)), if_neg hne]
      rfl
    unfold aggregateProofArm
    rw [h1]
    dsimp only
    rw [hbk]
    dsimp only
    rw [h2]
    dsimp only
    rw [hbs]
    dsimp only
    rw [hrun]
    exact ⟨⟨0, rfl⟩, rfl⟩

/-- Closed check of `c7_aggregate_count_boundary` at concrete invocations
with aggregation counts 0 and 1. -/
theorem c7_witness :
    ((aggregateProofArm ⟨["num_agg", "size"],
        [("num_agg", "0"), ("size", "2KiB")]⟩).2 =
      Except.error BenchError.emptyAggregateBatch ∧
      (aggregateProofArm ⟨["num_agg", "size"],
        [("num_agg", "0"), ("size", "2KiB")]⟩).1.all
        (fun e => !isPhaseEvent e) = true) ∧
    ((∃ t, (aggregateProofArm ⟨["num_agg", "size"],
        [("num_agg", "1"), ("size", "2KiB")]⟩).2 = Except.ok [t]) ∧
      (aggregateProofArm ⟨["num_agg", "size"],
        [("num_agg", "1"), ("size", "2KiB")]⟩).1.count
        (Event.phase PhaseId.aggregation) = 1) :=
  ⟨c7_aggregate_count_boundary.1
      ⟨["num_agg", "size"], [("num_agg", "0"), ("size", "2KiB")]⟩
      "0" "2KiB" 2048 (by rfl) (by rfl) (by rfl) (by rfl),
   c7_aggregate_count_boundary.2
      ⟨["num_agg", "size"], [("num_agg", "1"), ("size", "2KiB")]⟩
      "1" "2KiB" 2048 (by rfl) (by rfl) (by rfl) (by rfl) (by decide)⟩


/-! ### C8 - C10: count parsing and casts -/

/-- C8: when the optional count flags are omitted from the command line the
documented defaults reach the runners: merkleproofs runs with proof count
1024 and aggregate-proof with aggregation count 128. -/
theorem c8_default_counts :
    (∀ (m : Matches) (s : String) (n : Nat),
      m.userVals.lookup "size" = some s → byteFromStr s = some n →
      m.userVals.lookup "proofs" = none →
      (merkleproofsArm m).1.head? = some (Event.calledMerkleproofs
        (usizeCast n) 1024 (isPresent merkleproofsArgs m "validate"))) ∧
    (∀ (m : Matches) (s : String) (n : Nat),
      m.userVals.lookup "size" = some s → byteFromStr s = some n →
      m.userVals.lookup "num_agg" = none →
      (aggregateProofArm m).1.head? =
        some (Event.calledAggregateProof (usizeCast n) 128)) := by
  constructor
  · intro m s n hs hb hpn
    have h1 := valueT_user merkleproofsArgs m "size" s hs
    have h2 := valueT_default merkleproofsArgs m "proofs" "1024" hpn rfl
    unfold merkleproofsArm
    rw [h1]
    dsimp only
    rw [hb]
    dsimp only
    rw [h2]
    dsimp only
    rw [show natFromStr "1024" = some 1024 from rfl]
    rfl
  · intro m s n hs hb hk
    have h1 := valueT_default aggProofArgs m "num_agg" "128" hk rfl
    have h2 := valueT_user aggProofArgs m "size" s hs
    unfold aggregateProofArm
    rw [h1]
    dsimp only
    rw [show byteFromStr "128" = some 128 from rfl]
    dsimp only
    rw [h2]
    dsimp only
    rw [hb]
    rfl

/-- Closed check of `c8_default_counts` at concrete invocations that pass
only `--size`. -/
theorem c8_witness :
    (merkleproofsArm (sizeOnly "4KiB")).1.head? = some (Event.calledMerkleproofs
      (usizeCast 4096) 1024 (isPresent merkleproofsArgs (sizeOnly "4KiB")
        "validate")) ∧
    (aggregateProofArm (sizeOnly "4KiB")).1.head? =
      some (Event.calledAggregateProof (usizeCast 4096) 128) :=
  ⟨c8_default_counts.1 (sizeOnly "4KiB") "4KiB" 4096 (by rfl) (by rfl) (by rfl),
   c8_default_counts.2 (sizeOnly "4KiB") "4KiB" 4096 (by rfl) (by rfl) (by rfl)⟩

/-- C9: the `--num_agg` value of aggregate-proof goes through the
human-readable byte-size parser, so the unit-suffixed string `2KiB` yields
an aggregation count of 2048, whereas the `--proofs` value of merkleproofs
is parsed as a plain unsigned integer and `2KiB` is rejected before the
runner is invoked. -/
theorem c9_num_agg_unit_suffix_vs_proofs_plain :
    (∀ (m : Matches) (s : String) (n : Nat),
      m.userVals.lookup "num_agg" = some "2KiB" →
      m.userVals.lookup "size" = some s → byteFromStr s = some n →
      (aggregateProofArm m).1.head? =
        some (Event.calledAggregateProof (usizeCast n) 2048)) ∧
    (∀ (m : Matches) (s : String) (n : Nat),
      m.userVals.lookup "size" = some s → byteFromStr s = some n →
      m.userVals.lookup "proofs" = some "2KiB" →
      merkleproofsArm m = ([], Except.error (BenchError.parseInt "2KiB"))) := by
  constructor
  · intro m s n hk hs hb
    have h1 := valueT_user aggProofArgs m "num_agg" "2KiB" hk
    have h2 := valueT_user aggProofArgs m "size" s hs
    unfold aggregateProofArm
    rw [h1]
    dsimp only
    rw [show byteFromStr "2KiB" = some 2048 from rfl]
    dsimp only
    rw [h2]
    dsimp only
    rw [hb]
    rfl
  · intro m s n hs hb hp
    have h1 := valueT_user merkleproofsArgs m "size" s hs
    have h2 := valueT_user merkleproofsArgs m "proofs" "2KiB" hp
    unfold merkleproofsArm
    rw [h1]
    dsimp only
    rw [hb]
    dsimp only
    rw [h2]
    dsimp only
    rw [show natFromStr "2KiB" = none from rfl]

/-- Closed check of `c9_num_agg_unit_suffix_vs_proofs_plain` at concrete
invocations passing `2KiB` as the count. -/
theorem c9_witness :
    (aggregateProofArm ⟨["num_agg", "size"],
        [("num_agg", "2KiB"), ("size", "1KiB")]⟩).1.head? =
      some (Event.calledAggregateProof (usizeCast 1024) 2048) ∧
    merkleproofsArm ⟨["size", "proofs"], [("size", "1KiB"), ("proofs", "2KiB")]⟩ =
      ([], Except.error (BenchError.parseInt "2KiB")) :=
  ⟨c9_num_agg_unit_suffix_vs_proofs_plain.1
      ⟨["num_agg", "size"], [("num_agg", "2KiB"), ("size", "1KiB")]⟩
      "1KiB" 1024 (by rfl) (by rfl) (by rfl),
   c9_num_agg_unit_suffix_vs_proofs_plain.2
      ⟨["size", "proofs"], [("size", "1KiB"), ("proofs", "2KiB")]⟩
      "1KiB" 1024 (by rfl) (by rfl) (by rfl)⟩

/-- C10: every parsed byte count is cast to a machine word unchecked, so a
size or num_agg string whose parsed value exceeds the word range reaches
the runner silently truncated modulo `2 ^ 64` instead of being reported as
an error. -/
theorem c10_usize_cast_truncates (s : String) (n : Nat)
    (hb : byteFromStr s = some n) :
    usizeCast n = n % 2 ^ 64 ∧
    (windowPostArm (sizeOnly s)).1.head? = some (Event.calledWindowPost
      (usizeCast n) ApiVersion.V1_0_0 "" false false false false false false) ∧
    (merkleproofsArm (sizeOnly s)).1.head? =
      some (Event.calledMerkleproofs (usizeCast n) 1024 false) ∧
    (aggregateProofArm (sizeOnly s)).1.head? =
      some (Event.calledAggregateProof (usizeCast n) 128) ∧
    (aggregateProofArm (numAggSize s)).1.head? =
      some (Event.calledAggregateProof 1024 (usizeCast n)) ∧
    (2 ^ 64 ≤ n → usizeCast n ≠ n) := by
  refine ⟨rfl, ?_, ?_, ?_, ?_, ?_⟩
  · rw [windowPostArm_sizeOnly, hb]
    rfl
  · rw [merkleproofsArm_sizeOnly, hb]
    rfl
  · rw [aggregateProofArm_sizeOnly, hb]
    rfl
  · rw [aggregateProofArm_numAggSize, hb]
    rfl
  · intro hge
    have hlt : n % 2 ^ 64 < 2 ^ 64 := Nat.mod_lt n (by positivity)
    have : usizeCast n = n % 2 ^ 64 := rfl
    omega

/-- Closed check of `c10_usize_cast_truncates`: the size string `32EiB`
parses to `2 ^ 65`, which reaches the aggregate-proof runner truncated. -/
theorem c10_witness :
    (aggregateProofArm (numAggSize "32EiB")).1.head? =
      some (Event.calledAggregateProof 1024 (usizeCast (32 * 1024 ^ 6))) ∧
    usizeCast (32 * 1024 ^ 6) ≠ 32 * 1024 ^ 6 :=
  ⟨(c10_usize_cast_truncates "32EiB" (32 * 1024 ^ 6) (by rfl)).2.2.2.2.1,
   (c10_usize_cast_truncates "32EiB" (32 * 1024 ^ 6) (by rfl)).2.2.2.2.2
     (by norm_num)⟩

end Benchy
